import Mathlib

/-!
Shallow embedding of the HackerAI desktop backend
(packages/desktop/src-tauri/src: lib.rs, auth.rs, docker.rs).

External collaborators (the `url` crate parser, the keyring facility, the
HTTP client, serde_json, the OS process spawner) are injected as explicit
parameters or modelled as explicit state, so every repository function
becomes a pure, executable Lean function. Rust `String` results built with
`format!` are modelled as the same string concatenations; log statements
that are the only observable effect of a branch are modelled as dedicated
outcome constructors.
-/

namespace HackerAI

/-- UTF-8 byte width of a character, as used by Rust `str::len` (which counts
bytes of the UTF-8 encoding, not characters). -/
def utf8Len (c : Char) : Nat :=
  if c.toNat ≤ 127 then 1
  else if c.toNat ≤ 2047 then 2
  else if c.toNat ≤ 65535 then 3
  else 4

/-- Rust `str::len`: number of UTF-8 bytes of the string. -/
def rustStrLen (s : String) : Nat := (s.data.map utf8Len).sum

/-- Rust `char::is_ascii_hexdigit`: the ranges are those of the character
literals 0 to 9 (48..57), a to f (97..102) and A to F (65..70). -/
def is_ascii_hexdigit (c : Char) : Bool :=
  (48 ≤ c.toNat && c.toNat ≤ 57)
    || (97 ≤ c.toNat && c.toNat ≤ 102)
    || (65 ≤ c.toNat && c.toNat ≤ 70)

/-- lib.rs `is_valid_token_format`: `token.len() == 64` (byte length) and
every char is an ASCII hex digit. -/
def is_valid_token_format (token : String) : Bool :=
  rustStrLen token == 64 && token.data.all is_ascii_hexdigit

/-- lib.rs `get_allowed_hosts`: the HACKERAI_ALLOWED_HOSTS environment
variable split on commas with each entry trimmed, or the default pair.
The environment is injected as the `env` argument. -/
def get_allowed_hosts (env : Option String) : List String :=
  match env with
  | some hosts => (hosts.splitOn ",").map String.trim
  | none => ["hackerai.co", "localhost"]

/-- Result of parsing an origin string with `url::Url::parse`: the scheme and
the optional host (`Url::scheme` and `Url::host_str`). The parser itself is
the external `url` crate and is injected as a function argument. -/
structure OriginParts where
  scheme : String
  host : Option String
deriving DecidableEq, Repr

/-- lib.rs `validate_origin`: parse the origin; on success require the host
to equal some allow-listed host and the scheme to be https, or http when the
host is localhost; on parse failure reject. -/
def validate_origin (env : Option String) (parseUrl : String → Option OriginParts)
    (origin : String) : Bool :=
  match parseUrl origin with
  | some parsed =>
      let host := parsed.host.getD ""
      let scheme := parsed.scheme
      let allowed_hosts := get_allowed_hosts env
      let is_allowed_host := allowed_hosts.any (fun allowed => host == allowed)
      let is_valid_scheme := scheme == "https" || (host == "localhost" && scheme == "http")
      is_allowed_host && is_valid_scheme
  | none => false

/-- Uppercase hex digit of a value below 16, used by percent-encoding. -/
def hexUpper (n : Nat) : Char :=
  if n < 10 then Char.ofNat (48 + n) else Char.ofNat (55 + n)

/-- Percent-encoding of one byte value as a three-character escape. -/
def percentEncode (n : Nat) : String :=
  String.mk ['%', hexUpper (n / 16), hexUpper (n % 16)]

/-- One character of `url::form_urlencoded::byte_serialize`: space becomes a
plus; asterisk, hyphen, period, underscore and ASCII alphanumerics pass
through; every other byte is percent-encoded. Modelled per character on the
ASCII range: the repository only serializes tokens that already passed
`is_valid_token_format`, which are pure ASCII. -/
def byte_serialize_char (c : Char) : String :=
  if c.toNat = 32 then "+"
  else if c.toNat = 42 ∨ c.toNat = 45 ∨ c.toNat = 46 ∨ c.toNat = 95
      ∨ (48 ≤ c.toNat ∧ c.toNat ≤ 57)
      ∨ (65 ≤ c.toNat ∧ c.toNat ≤ 90)
      ∨ (97 ≤ c.toNat ∧ c.toNat ≤ 122) then
    String.singleton c
  else percentEncode c.toNat

/-- lib.rs line 71: the token percent-encoded before being embedded in the
callback URL. -/
def byte_serialize (s : String) : String :=
  String.join (s.data.map byte_serialize_char)

/-- A deep-link URL after parsing by the external `url` crate: scheme,
optional host, path, and decoded query pairs in order
(`Url::query_pairs`). -/
structure ParsedUrl where
  scheme : String
  host : Option String
  path : String
  query_pairs : List (String × String)
deriving DecidableEq, Repr

/-- Rust `query_pairs().find(|(k, _)| k == key).map(|(_, v)| v)`: the value
of the first query pair whose key matches. -/
def findParam (pairs : List (String × String)) (key : String) : Option String :=
  (pairs.find? (fun p => p.1 == key)).map (fun p => p.2)

/-- Observable outcome of lib.rs `handle_auth_deep_link`. `ignored` is the
early return for a foreign scheme or a non-auth endpoint; `invalidTokenFormat`
is the logged early return for a malformed token; `noWindow` is the silent
fall-through when the main webview window is absent; `navigate` carries the
callback URL handed to `window.navigate`; `authErrorLogged` and
`missingTokenLogged` are the two logged outcomes of the token-less branch. -/
inductive DeepLinkOutcome where
  | ignored
  | invalidTokenFormat
  | noWindow
  | navigate (callback_url : String)
  | authErrorLogged (error : String)
  | missingTokenLogged
deriving DecidableEq, Repr

/-- lib.rs `handle_auth_deep_link`. The environment (for the allow-list), the
origin URL parser and the presence of the main window are injected. The
post-navigation error handling (navigation failure fallback page) happens
after the callback URL is built and does not change which URL is targeted. -/
def handle_auth_deep_link (env : Option String) (parseUrl : String → Option OriginParts)
    (hasWindow : Bool) (url : ParsedUrl) : DeepLinkOutcome :=
  if url.scheme ≠ "hackerai" then .ignored
  else if url.host = some "auth" ∨ url.path = "/auth" ∨ url.path = "auth" then
    match findParam url.query_pairs "token" with
    | some token =>
        if ! is_valid_token_format token then .invalidTokenFormat
        else if hasWindow then
          let origin := ((findParam url.query_pairs "origin").filter
              (fun o => validate_origin env parseUrl o)).getD "https://hackerai.co"
          let encoded_token := byte_serialize token
          .navigate (origin ++ "/desktop-callback?token=" ++ encoded_token)
        else .noWindow
    | none =>
        match findParam url.query_pairs "error" with
        | some e => .authErrorLogged e
        | none => .missingTokenLogged
  else .ignored

/-- auth.rs `AuthTokens`. -/
structure AuthTokens where
  access_token : String
  refresh_token : String
deriving DecidableEq, Repr

/-- auth.rs `LoginInitiated`. -/
structure LoginInitiated where
  state : String
  url : String
deriving DecidableEq, Repr

/-- auth.rs `start_login`. The freshly generated UUID state is injected as
the `state` argument (the generator is external randomness); the function
defaults the base URL and formats the login URL. -/
def start_login (state : String) (base_url : Option String) : LoginInitiated :=
  let base := base_url.getD "https://hackerai.co"
  let url := base ++ "/api/desktop-auth/login?state=" ++ state
  { state := state, url := url }

/-- The single keyring slot for (service hackerai-desktop, key auth-tokens):
the stored password string, or none when no entry exists. The OS secret
facility itself is external; the slot is modelled as authoritative state and
platform-level faults of the facility are outside the model. -/
abbrev KeyringState := Option String

/-- auth.rs `get_stored_tokens`: read the password; absence is Ok none; a
present password is decoded by serde_json (injected as `decode`), a decode
failure is the Token parse error. -/
def get_stored_tokens (decode : String → Except String AuthTokens)
    (st : KeyringState) : Except String (Option AuthTokens) :=
  match st with
  | none => .ok none
  | some json =>
      match decode json with
      | .error e => .error ("Token parse error: " ++ e)
      | .ok tokens => .ok (some tokens)

/-- auth.rs `store_tokens`: serialize with serde_json (injected as `encode`),
then set the password (the facility's set result is injected as `setRes`);
on success the slot holds the serialized string. -/
def store_tokens (encode : AuthTokens → Except String String)
    (setRes : String → Except String Unit) (tokens : AuthTokens)
    (st : KeyringState) : Except String Unit × KeyringState :=
  match encode tokens with
  | .error e => (.error ("Serialization error: " ++ e), st)
  | .ok json =>
      match setRes json with
      | .error e => (.error ("Keyring error: " ++ e), st)
      | .ok _ => (.ok (), some json)

/-- auth.rs `logout`: `delete_credential` is called and its result is
discarded, so the call always succeeds and the slot is empty afterwards. -/
def logout (_st : KeyringState) : Except String Unit × KeyringState :=
  (.ok (), none)

/-- The HTTP response observed by `refresh_tokens`: status code, body text,
and the result of deserializing the body as `AuthTokens`
(`response.json()`, external serde). -/
structure HttpResponse where
  status : Nat
  body : String
  jsonTokens : Except String AuthTokens

/-- reqwest `StatusCode::is_success`: the 200..=299 range. -/
def is_success (status : Nat) : Bool :=
  200 ≤ status && status < 300

/-- auth.rs `refresh_tokens`. The transport result is injected as `send`
(a transport error or a response); `statusDisplay` renders a status code the
way `format!` displays a reqwest status; `encode`/`setRes` are passed on to
`store_tokens`, which is called with the parsed tokens before they are
returned. The second component is the keyring slot after the call. -/
def refresh_tokens (encode : AuthTokens → Except String String)
    (setRes : String → Except String Unit) (statusDisplay : Nat → String)
    (send : Except String HttpResponse) (st : KeyringState) :
    Except String AuthTokens × KeyringState :=
  match send with
  | .error e => (.error ("Network error: " ++ e), st)
  | .ok resp =>
      if ! is_success resp.status then
        (.error ("Refresh failed: HTTP " ++ statusDisplay resp.status), st)
      else
        match resp.jsonTokens with
        | .error e => (.error ("Parse error: " ++ e), st)
        | .ok tokens =>
            match store_tokens encode setRes tokens st with
            | (.error e, st') => (.error e, st')
            | (.ok _, st') => (.ok tokens, st')

/-- auth.rs `handle_auth_error`: the reason emitted with the auth-error
event. The argument is the query pairs of the parsed URL, or none when
parsing failed; the reason parameter's value is used, defaulting to the
Unknown error text. -/
def handle_auth_error (query_pairs : Option (List (String × String))) : String :=
  ((query_pairs.bind (fun qp => findParam qp "reason")).getD "Unknown error")

/-- docker.rs: a spawned child process; only the pid is observable to the
supervisor logic. -/
structure Child where
  pid : Nat
deriving DecidableEq, Repr

/-- docker.rs `SandboxStatus`. -/
structure SandboxStatus where
  running : Bool
  pid : Option Nat
  image : String
  name : Option String
deriving DecidableEq, Repr

/-- docker.rs `SandboxConfig`. -/
structure SandboxConfig where
  token : String
  name : String
  image : Option String
  dangerous : Option Bool
  persist : Option Bool
deriving DecidableEq, Repr

/-- docker.rs `start_sandbox` lines 147-164: the npx argument vector built
from the config. -/
def start_args (token name image : String) (dangerous persist : Bool) : List String :=
  ["@hackerai/local", "--token", token, "--name", name, "--image", image]
    ++ (if dangerous then ["--dangerous"] else [])
    ++ (if persist then ["--persist"] else [])

/-- docker.rs `start_sandbox`. The process spawner is injected as `spawn`;
`st` is the handle slot guarded by the mutex. The third component records
every argument vector actually passed to the spawner, so an empty list means
the spawner was never invoked. -/
def start_sandbox (spawn : List String → Except String Child)
    (config : SandboxConfig) (st : Option Child) :
    Except String SandboxStatus × Option Child × List (List String) :=
  if st.isSome then (.error "Sandbox is already running", st, [])
  else
    let image := config.image.getD "hackerai/sandbox"
    let args := start_args config.token config.name image
        (config.dangerous.getD false) (config.persist.getD false)
    match spawn args with
    | .error e => (.error ("Failed to start sandbox: " ++ e), st, [args])
    | .ok child =>
        (.ok { running := true, pid := some child.pid, image := image,
               name := some config.name },
         some child, [args])

/-- A signal sent to the child during `stop_sandbox`. -/
inductive KillAction where
  | sigterm (pid : Nat)
  | forceKill (pid : Nat)
deriving DecidableEq, Repr

/-- docker.rs `stop_sandbox`. `isUnix` selects the cfg(unix) graceful SIGTERM
branch; `tryWaitRes` is the outcome of `child.try_wait()` (Ok some exit
status, Ok none while still running, or an error). The handle is taken out of
the slot before signalling, kill results are discarded, and the call returns
Ok on every path. The third component lists the signals sent. -/
def stop_sandbox (isUnix : Bool) (tryWaitRes : Except String (Option Nat))
    (st : Option Child) : Except String Unit × Option Child × List KillAction :=
  match st with
  | none => (.ok (), none, [])
  | some child =>
      let graceful := if isUnix then [KillAction.sigterm child.pid] else []
      match tryWaitRes with
      | .ok (some _) => (.ok (), none, graceful)
      | .ok none => (.ok (), none, graceful ++ [KillAction.forceKill child.pid])
      | .error _ => (.ok (), none, graceful ++ [KillAction.forceKill child.pid])

/-- docker.rs `get_sandbox_status`. `tryWait` is `child.try_wait()` for the
held child. Every returned status hardcodes the image hackerai/sandbox and no
name; an observed exit or a poll error clears the slot. -/
def get_sandbox_status (tryWait : Child → Except String (Option Nat))
    (st : Option Child) : Except String SandboxStatus × Option Child :=
  match st with
  | none =>
      (.ok { running := false, pid := none, image := "hackerai/sandbox", name := none }, none)
  | some child =>
      match tryWait child with
      | .ok (some _) =>
          (.ok { running := false, pid := none, image := "hackerai/sandbox", name := none }, none)
      | .ok none =>
          (.ok { running := true, pid := some child.pid, image := "hackerai/sandbox",
                 name := none }, some child)
      | .error e => (.error ("Status check failed: " ++ e), none)

/-- A 64-character all-hex token used as a concrete witness input. -/
def tok64 : String := String.mk (List.replicate 64 'a')

/-- Every ASCII hex digit occupies one UTF-8 byte. -/
theorem utf8Len_eq_one_of_hex {c : Char} (h : is_ascii_hexdigit c = true) :
    utf8Len c = 1 := by
  simp only [is_ascii_hexdigit, Bool.or_eq_true, Bool.and_eq_true, decide_eq_true_eq] at h
  have hle : c.toNat ≤ 127 := by omega
  simp [utf8Len, hle]

/-- On an all-hex character list, the UTF-8 byte length equals the character
count. -/
theorem sum_utf8Len_of_hex :
    ∀ l : List Char, (∀ c ∈ l, is_ascii_hexdigit c = true) →
      (l.map utf8Len).sum = l.length := by
  intro l
  induction l with
  | nil => intro _; rfl
  | cons c l ih =>
      intro h
      simp only [List.map_cons, List.sum_cons, List.length_cons]
      rw [utf8Len_eq_one_of_hex (h c (by simp)),
        ih (fun d hd => h d (by simp [hd]))]
      omega

/-- Under the auth-endpoint hypotheses with a valid token and a present main
window, the handler navigates to the filtered-origin callback URL. -/
theorem handle_navigate_reduction (env : Option String)
    (parseUrl : String → Option OriginParts) (url : ParsedUrl) (token : String)
    (hscheme : url.scheme = "hackerai")
    (hend : url.host = some "auth" ∨ url.path = "/auth" ∨ url.path = "auth")
    (htok : findParam url.query_pairs "token" = some token)
    (hok : is_valid_token_format token = true) :
    handle_auth_deep_link env parseUrl true url =
      .navigate ((((findParam url.query_pairs "origin").filter
          (fun o => validate_origin env parseUrl o)).getD "https://hackerai.co")
        ++ "/desktop-callback?token=" ++ byte_serialize token) := by
  unfold handle_auth_deep_link
  rw [if_neg (by simp [hscheme]), if_pos hend, htok]
  simp [hok]

/-- The origin validator succeeds exactly when the origin parses and its host
is allow-listed with an allowed scheme. -/
theorem validate_origin_iff (env : Option String)
    (parseUrl : String → Option OriginParts) (o : String) :
    validate_origin env parseUrl o = true ↔
      ∃ parts, parseUrl o = some parts ∧
        (parts.host.getD "") ∈ get_allowed_hosts env ∧
        (parts.scheme = "https" ∨
          (parts.host.getD "" = "localhost" ∧ parts.scheme = "http")) := by
  unfold validate_origin
  cases h : parseUrl o with
  | none => simp
  | some parts =>
      simp only [Bool.and_eq_true, List.any_eq_true, beq_iff_eq, Bool.or_eq_true,
        Option.some.injEq]
      constructor
      · rintro ⟨⟨a, ha, rfl⟩, hs⟩
        exact ⟨parts, rfl, ha, by simpa using hs⟩
      · rintro ⟨parts', rfl, hmem, hs⟩
        exact ⟨⟨_, hmem, rfl⟩, by simpa using hs⟩

/-- C1: the deep-link token validator accepts a token string exactly when it
consists of 64 ASCII hexadecimal characters; a token failing the check makes
the handler stop with the invalid-token-format outcome instead of navigating
to the callback URL. -/
theorem token_validator_spec :
    (∀ t : String, is_valid_token_format t = true ↔
      (t.data.length = 64 ∧ ∀ c ∈ t.data, is_ascii_hexdigit c = true))
    ∧ (∀ (env : Option String) (parseUrl : String → Option OriginParts)
        (hasWindow : Bool) (url : ParsedUrl) (token : String),
        url.scheme = "hackerai" →
        (url.host = some "auth" ∨ url.path = "/auth" ∨ url.path = "auth") →
        findParam url.query_pairs "token" = some token →
        is_valid_token_format token = false →
        handle_auth_deep_link env parseUrl hasWindow url = .invalidTokenFormat) := by
  constructor
  · intro t
    simp only [is_valid_token_format, Bool.and_eq_true, beq_iff_eq, List.all_eq_true]
    constructor
    · rintro ⟨hlen, hall⟩
      refine ⟨?_, hall⟩
      have := sum_utf8Len_of_hex t.data hall
      simp only [rustStrLen] at hlen
      omega
    · rintro ⟨hlen, hall⟩
      refine ⟨?_, hall⟩
      have := sum_utf8Len_of_hex t.data hall
      simp only [rustStrLen]
      omega
  · intro env parseUrl hasWindow url token hscheme hend htok hbad
    unfold handle_auth_deep_link
    rw [if_neg (by simp [hscheme]), if_pos hend, htok]
    simp [hbad]

/-- Witness for C1: a concrete malformed token is rejected without
navigation. -/
theorem token_validator_spec_witness :
    handle_auth_deep_link none (fun _ => none) true
      ⟨"hackerai", some "auth", "/auth", [("token", "zz")]⟩ =
      .invalidTokenFormat :=
  token_validator_spec.2 none (fun _ => none) true
    ⟨"hackerai", some "auth", "/auth", [("token", "zz")]⟩ "zz"
    rfl (Or.inl rfl) rfl (by decide)

/-- C2: an origin query parameter is used as the redirect origin only when it
parses to an allow-listed host with scheme https (or http for localhost); any
other present origin, and an absent one, is replaced by the production
default, and the navigation targets that default. -/
theorem origin_validation_spec :
    ∀ (env : Option String) (parseUrl : String → Option OriginParts)
      (url : ParsedUrl) (token : String),
      url.scheme = "hackerai" →
      (url.host = some "auth" ∨ url.path = "/auth" ∨ url.path = "auth") →
      findParam url.query_pairs "token" = some token →
      is_valid_token_format token = true →
      (∀ o, findParam url.query_pairs "origin" = some o →
        ((validate_origin env parseUrl o = true →
          handle_auth_deep_link env parseUrl true url =
            .navigate (o ++ "/desktop-callback?token=" ++ byte_serialize token))
        ∧ (validate_origin env parseUrl o = false →
          handle_auth_deep_link env parseUrl true url =
            .navigate ("https://hackerai.co" ++ "/desktop-callback?token="
              ++ byte_serialize token))
        ∧ (validate_origin env parseUrl o = true ↔
            ∃ parts, parseUrl o = some parts ∧
              (parts.host.getD "") ∈ get_allowed_hosts env ∧
              (parts.scheme = "https" ∨
                (parts.host.getD "" = "localhost" ∧ parts.scheme = "http")))))
      ∧ (findParam url.query_pairs "origin" = none →
          handle_auth_deep_link env parseUrl true url =
            .navigate ("https://hackerai.co" ++ "/desktop-callback?token="
              ++ byte_serialize token)) := by
  intro env parseUrl url token hscheme hend htok hok
  have hred := handle_navigate_reduction env parseUrl url token hscheme hend htok hok
  constructor
  · intro o ho
    refine ⟨?_, ?_, validate_origin_iff env parseUrl o⟩
    · intro hvo
      rw [hred, ho]
      simp [Option.filter, hvo]
    · intro hvo
      rw [hred, ho]
      simp [Option.filter, hvo]
  · intro ho
    rw [hred, ho]
    simp [Option.filter]

/-- Witness for C2: with no origin parameter, a valid concrete deep link
navigates to the production default origin. -/
theorem origin_validation_spec_witness :
    handle_auth_deep_link none (fun _ => none) true
      ⟨"hackerai", some "auth", "", [("token", tok64)]⟩ =
      .navigate ("https://hackerai.co" ++ "/desktop-callback?token="
        ++ byte_serialize tok64) :=
  (origin_validation_spec none (fun _ => none)
    ⟨"hackerai", some "auth", "", [("token", tok64)]⟩ tok64
    rfl (Or.inl rfl) rfl (by decide)).2 rfl

/-- C3: starting while a handle is already held returns the AlreadyRunning
error, invokes the spawner zero times, and leaves the stored handle
unchanged. -/
theorem start_already_running_spec :
    ∀ (spawn : List String → Except String Child) (config : SandboxConfig) (c : Child),
      start_sandbox spawn config (some c) =
        (.error "Sandbox is already running", some c, []) := by
  intro spawn config c
  rfl

/-- C4: stopping always returns success and always clears the handle slot, on
every platform, for every poll outcome, whether or not a handle was held. -/
theorem stop_always_ok_spec :
    ∀ (isUnix : Bool) (tryWaitRes : Except String (Option Nat)) (st : Option Child),
      (stop_sandbox isUnix tryWaitRes st).1 = .ok ()
      ∧ (stop_sandbox isUnix tryWaitRes st).2.1 = none := by
  intro isUnix twr st
  cases st with
  | none => exact ⟨rfl, rfl⟩
  | some c =>
      cases twr with
      | error e => exact ⟨rfl, rfl⟩
      | ok o =>
          cases o with
          | none => exact ⟨rfl, rfl⟩
          | some n => exact ⟨rfl, rfl⟩

/-- C5 counterexample: two non-2xx refresh responses that differ only in the
response body produce identical results, and the returned error string names
only the status, so the returned error cannot carry the response body. -/
theorem refresh_http_error_body_counterexample :
    refresh_tokens (fun _ => .ok "") (fun _ => .ok ()) (fun n => toString n)
        (.ok { status := 500, body := "body-a", jsonTokens := .error "" }) none =
      refresh_tokens (fun _ => .ok "") (fun _ => .ok ()) (fun n => toString n)
        (.ok { status := 500, body := "body-b", jsonTokens := .error "" }) none
    ∧ ("body-a" : String) ≠ "body-b"
    ∧ (refresh_tokens (fun _ => .ok "") (fun _ => .ok ()) (fun n => toString n)
        (.ok { status := 500, body := "body-a", jsonTokens := .error "" }) none).1 =
      .error "Refresh failed: HTTP 500" :=
  ⟨rfl, by decide, rfl⟩

/-- C5 amended: on a non-2xx response, refresh returns an error carrying the
response status (the body is logged, not returned); on a transport failure it
returns a network error; in both cases the credential slot is unchanged, so
no credential is persisted. -/
theorem refresh_error_channels_spec :
    ∀ (encode : AuthTokens → Except String String)
      (setRes : String → Except String Unit)
      (statusDisplay : Nat → String) (st : KeyringState),
      (∀ resp : HttpResponse, is_success resp.status = false →
        refresh_tokens encode setRes statusDisplay (.ok resp) st =
          (.error ("Refresh failed: HTTP " ++ statusDisplay resp.status), st))
      ∧ (∀ e : String,
          refresh_tokens encode setRes statusDisplay (.error e) st =
            (.error ("Network error: " ++ e), st)) := by
  intro encode setRes sd st
  constructor
  · intro resp h
    unfold refresh_tokens
    simp [h]
  · intro e
    rfl

/-- Witness for C5 amended: a concrete 404 refresh response yields the status
error and leaves the empty credential slot empty. -/
theorem refresh_error_channels_spec_witness :
    refresh_tokens (fun _ => .ok "") (fun _ => .ok ()) (fun n => toString n)
      (.ok { status := 404, body := "nope", jsonTokens := .error "" }) none =
      (.error ("Refresh failed: HTTP " ++ toString 404), none) :=
  (refresh_error_channels_spec (fun _ => .ok "") (fun _ => .ok ())
    (fun n => toString n) none).1
    { status := 404, body := "nope", jsonTokens := .error "" } (by decide)

/-- C6 counterexample: the login URL path is not the claimed
login-under-base path, neither with the default base nor with an explicit
base. -/
theorem start_login_url_counterexample :
    (start_login "abc" none).url ≠ "https://hackerai.co" ++ "/login?state=" ++ "abc"
    ∧ (start_login "abc" (some "https://example.com")).url ≠
        "https://example.com" ++ "/login?state=" ++ "abc" :=
  ⟨by decide, by decide⟩

/-- C6 amended: the returned login URL is the base (defaulting to the
production base) followed by the api desktop-auth login path and a state
query equal to the state returned in the same request. -/
theorem start_login_url_spec :
    ∀ (state : String) (base_url : Option String),
      start_login state base_url =
        { state := state,
          url := (base_url.getD "https://hackerai.co")
            ++ "/api/desktop-auth/login?state=" ++ state } := by
  intro s b
  rfl

/-- C7: an auth deep link without a token yields the logged auth-error
outcome carrying the error parameter when one is present and the logged
missing-token outcome when both are absent; the auth-error handler emits the
reason parameter it finds. -/
theorem missing_token_error_spec :
    (∀ (env : Option String) (parseUrl : String → Option OriginParts)
      (hasWindow : Bool) (url : ParsedUrl),
      url.scheme = "hackerai" →
      (url.host = some "auth" ∨ url.path = "/auth" ∨ url.path = "auth") →
      findParam url.query_pairs "token" = none →
      ((∀ e, findParam url.query_pairs "error" = some e →
          handle_auth_deep_link env parseUrl hasWindow url = .authErrorLogged e)
       ∧ (findParam url.query_pairs "error" = none →
          handle_auth_deep_link env parseUrl hasWindow url = .missingTokenLogged)))
    ∧ (∀ (qp : List (String × String)) (r : String),
        findParam qp "reason" = some r → handle_auth_error (some qp) = r) := by
  constructor
  · intro env parseUrl hw url hscheme hend htok
    constructor
    · intro e he
      unfold handle_auth_deep_link
      rw [if_neg (by simp [hscheme]), if_pos hend, htok, he]
    · intro he
      unfold handle_auth_deep_link
      rw [if_neg (by simp [hscheme]), if_pos hend, htok, he]
  · intro qp r h
    simp [handle_auth_error, h]

/-- Witness for C7: a concrete error-bearing link logs its reason and a
concrete reason parameter is emitted. -/
theorem missing_token_error_spec_witness :
    handle_auth_deep_link none (fun _ => none) true
      ⟨"hackerai", some "auth", "", [("error", "denied")]⟩ =
      .authErrorLogged "denied"
    ∧ handle_auth_error (some [("reason", "expired")]) = "expired" :=
  ⟨(missing_token_error_spec.1 none (fun _ => none) true
      ⟨"hackerai", some "auth", "", [("error", "denied")]⟩
      rfl (Or.inl rfl) rfl).1 "denied" rfl,
   missing_token_error_spec.2 [("reason", "expired")] "expired" rfl⟩

/-- C8: logout succeeds from every prior credential-store state, clears the
slot, and a second consecutive logout also succeeds. -/
theorem logout_always_ok_spec :
    ∀ st : KeyringState,
      (logout st).1 = .ok () ∧ (logout st).2 = none
      ∧ (logout (logout st).2).1 = .ok () := by
  intro st
  exact ⟨rfl, rfl, rfl⟩

/-- C9: storing a credential and reading the store back returns an equal
credential (given the serde codec round-trips it), and reading after a
delete returns absent. -/
theorem credential_round_trip_spec :
    ∀ (encode : AuthTokens → Except String String)
      (decode : String → Except String AuthTokens)
      (setRes : String → Except String Unit) (c : AuthTokens)
      (st st' : KeyringState) (json : String),
      encode c = .ok json → decode json = .ok c → setRes json = .ok () →
      get_stored_tokens decode (store_tokens encode setRes c st).2 = .ok (some c)
      ∧ get_stored_tokens decode (logout st').2 = .ok none := by
  intro encode decode setRes c st st' json he hd hs
  constructor
  · simp [store_tokens, he, hs, get_stored_tokens, hd]
  · rfl

/-- Witness for C9: a concrete codec and credential round-trip through the
slot, and a delete on a non-empty slot leaves the read absent. -/
theorem credential_round_trip_spec_witness :
    get_stored_tokens (fun s => .ok ⟨s, "r"⟩)
        (store_tokens (fun t => .ok t.access_token) (fun _ => .ok ())
          ⟨"a", "r"⟩ none).2 = .ok (some ⟨"a", "r"⟩)
    ∧ get_stored_tokens (fun s => .ok ⟨s, "r"⟩) (logout (some "x")).2 = .ok none :=
  credential_round_trip_spec (fun t => .ok t.access_token)
    (fun s => .ok ⟨s, "r"⟩) (fun _ => .ok ()) ⟨"a", "r"⟩ none (some "x") "a"
    rfl rfl rfl

/-- C10: every status value returned by the status poll carries the fixed
image name and no sandbox name, whatever the start configuration was, while
the value returned by start itself carries the configured image and name. -/
theorem sandbox_status_fixed_image_spec :
    (∀ (tryWait : Child → Except String (Option Nat)) (st : Option Child)
       (status : SandboxStatus) (st' : Option Child),
       get_sandbox_status tryWait st = (.ok status, st') →
       status.image = "hackerai/sandbox" ∧ status.name = none)
    ∧ (∀ (spawn : List String → Except String Child) (config : SandboxConfig)
         (status : SandboxStatus) (st' : Option Child)
         (spawned : List (List String)),
         start_sandbox spawn config none = (.ok status, st', spawned) →
         status.image = config.image.getD "hackerai/sandbox"
         ∧ status.name = some config.name) := by
  constructor
  · intro tw st status st' h
    cases st with
    | none =>
        unfold get_sandbox_status at h
        injection h with h1 h2
        injection h1 with h1
        rw [← h1]
        exact ⟨rfl, rfl⟩
    | some c =>
        cases htw : tw c with
        | error e =>
            simp only [get_sandbox_status, htw] at h
            injection h with h1 h2
            injection h1
        | ok o =>
            cases o with
            | none =>
                simp only [get_sandbox_status, htw] at h
                injection h with h1 h2
                injection h1 with h1
                rw [← h1]
                exact ⟨rfl, rfl⟩
            | some n =>
                simp only [get_sandbox_status, htw] at h
                injection h with h1 h2
                injection h1 with h1
                rw [← h1]
                exact ⟨rfl, rfl⟩
  · intro spawn config status st' spawned h
    unfold start_sandbox at h
    simp only [Option.isSome_none, Bool.false_eq_true, if_false] at h
    cases hs : spawn (start_args config.token config.name
        (config.image.getD "hackerai/sandbox") (config.dangerous.getD false)
        (config.persist.getD false)) with
    | error e =>
        rw [hs] at h
        injection h with h1 h2
        injection h1
    | ok child =>
        rw [hs] at h
        injection h with h1 h2
        injection h1 with h1
        rw [← h1]
        exact ⟨rfl, rfl⟩

/-- Witness for C10: the concrete status of an idle supervisor reports the
fixed image and no name. -/
theorem sandbox_status_fixed_image_spec_witness :
    (SandboxStatus.mk false none "hackerai/sandbox" none).image = "hackerai/sandbox"
    ∧ (SandboxStatus.mk false none "hackerai/sandbox" none).name = none :=
  sandbox_status_fixed_image_spec.1 (fun _ => .ok none) none
    (SandboxStatus.mk false none "hackerai/sandbox" none) none rfl

end HackerAI
